import Mathlib

/-!
Verification of the veterinary-clinic record store (`vet_clinic.py`).

The Python program drives a SQLite database: `create_tables` declares five
tables with CHECK / UNIQUE / FOREIGN KEY constraints, `drop_tables` removes
them, and the wrappers `execute_query`, `execute_many`, `fetch_query`,
`create_connection` mediate all store access.  We embed the store as an
explicit state (`DB`), the constraint clauses as executable predicates, and
the Python sqlite3 connection discipline (implicit transaction opened by a
data-modifying statement, `conn.commit()` on success only, no rollback on
failure) as a `Conn` state carrying the committed database and the pending
uncommitted working copy.
-/

set_option autoImplicit false

deriving instance DecidableEq for Except

namespace VetClinic

/-- A decimal digit character, as matched by the SQLite GLOB class `[0-9]`. -/
def isDigitCh (c : Char) : Bool := '0' ≤ c && c ≤ '9'

/-- `GLOB 'X[0-9][0-9][0-9][0-9][0-9][0-9]'`: the tag character followed by
exactly six digits (used for every primary-key format CHECK). -/
def keyGlob (tag : Char) (s : String) : Bool :=
  match s.data with
  | t :: ds => t == tag && ds.length == 6 && ds.all isDigitCh
  | [] => false

/-- `GLOB '*[0-9]*'`: the string contains at least one digit (the name
columns are CHECKed with `NOT GLOB '*[0-9]*'`). -/
def containsDigit (s : String) : Bool := s.data.any isDigitCh

/-- `GLOB '[0-9][0-9][0-9]-[0-9][0-9][0-9]-[0-9][0-9][0-9][0-9]'`:
the phone-number format CHECK. -/
def phoneGlob (s : String) : Bool :=
  match s.data with
  | [a, b, c, h1, d, e, f, h2, g, h, i, j] =>
      isDigitCh a && isDigitCh b && isDigitCh c && h1 == '-' &&
      isDigitCh d && isDigitCh e && isDigitCh f && h2 == '-' &&
      isDigitCh g && isDigitCh h && isDigitCh i && isDigitCh j
  | _ => false

/-- Decimal value of a digit list (most significant first). -/
def digitsVal : List Char → Nat
  | [] => 0
  | c :: cs => (c.toNat - '0'.toNat) * 10 ^ cs.length + digitsVal cs

/-- SQLite's `date(X) IS NOT NULL` on a text value: `date()` parses
`YYYY-MM-DD` requiring four/two/two digits, month in 1..12 and day in 1..31
(SQLite does not apply month-specific day bounds; out-of-range fields make
`date()` return NULL, which fails the `IS NOT NULL` test).  The program only
ever supplies bare `YYYY-MM-DD` strings, so the optional time suffix and the
julian-number forms accepted by SQLite are not modelled. -/
def sqliteDateValid (s : String) : Bool :=
  match s.data with
  | [y1, y2, y3, y4, h1, m1, m2, h2, d1, d2] =>
      h1 == '-' && h2 == '-' &&
      [y1, y2, y3, y4, m1, m2, d1, d2].all isDigitCh &&
      (let m := digitsVal [m1, m2]
       let d := digitsVal [d1, d2]
       1 ≤ m && m ≤ 12 && 1 ≤ d && d ≤ 31)
  | _ => false

/-- `CHECK (date(col) IS NOT NULL)` on a nullable column: `date(NULL)` is
NULL and `NULL IS NOT NULL` is FALSE, so a NULL value fails this CHECK. -/
def dateCheck : Option String → Bool
  | none => false
  | some s => sqliteDateValid s

/-- The enumerated Staff positions of the `position IN (...)` CHECK. -/
def positionsList : List String :=
  ["Veterinarian", "Nurse", "Technician", "Receptionist"]

/-- `CHECK (position IN (...))`: on NULL the IN-test is NULL and a NULL
CHECK result does not reject the row, so NULL passes. -/
def positionCheck : Option String → Bool
  | none => true
  | some p => positionsList.contains p

/-- `CHECK (salary > 0)` on the REAL column: NULL compares to NULL, which
passes the CHECK; a non-NULL value must be strictly positive. -/
def salaryCheck : Option Rat → Bool
  | none => true
  | some x => 0 < x

/-- The enumerated Pet species of the `species IN (...)` CHECK. -/
def speciesList : List String := ["Dog", "Cat", "Bird", "Rabbit", "Other"]

/-- `CHECK (LENGTH(col) <= 500)` on a nullable column: `LENGTH(NULL)` is
NULL so the CHECK result is NULL, which passes. -/
def lenLe500 : Option String → Bool
  | none => true
  | some s => s.length ≤ 500

/-- A row of the Clinic table (all columns are `TEXT NOT NULL`). -/
structure ClinicRow where
  clinicNo : String
  clinicName : String
  clinicAddress : String
  clinicPhone : String
deriving DecidableEq

/-- A row of the Owner table (all columns are `TEXT NOT NULL`). -/
structure OwnerRow where
  ownerNo : String
  ownerName : String
  ownerAddress : String
  ownerPhone : String
deriving DecidableEq

/-- A row of the Staff table; `dateOfBirth`, `position` and `salary` are
declared without NOT NULL, so they are nullable. -/
structure StaffRow where
  staffNo : String
  staffName : String
  staffAddress : String
  staffPhone : String
  dateOfBirth : Option String
  position : Option String
  salary : Option Rat
  clinicNo : String
deriving DecidableEq

/-- A row of the Pet table; `breed` and `color` are nullable. -/
structure PetRow where
  petNo : String
  petName : String
  petDateOfBirth : String
  species : String
  breed : Option String
  color : Option String
  ownerNo : String
  clinicNo : String
deriving DecidableEq

/-- A row of the Examination table; `description` and `actionsTaken` are
nullable. -/
structure ExamRow where
  examNo : String
  chiefComplaint : String
  description : Option String
  dateSeen : String
  actionsTaken : Option String
  petNo : String
  staffNo : String
deriving DecidableEq

/-- The CHECK constraints of the Clinic table declaration. -/
def clinicChecks (r : ClinicRow) : Bool :=
  keyGlob 'C' r.clinicNo && !containsDigit r.clinicName &&
  phoneGlob r.clinicPhone && r.clinicPhone.length == 12

/-- The CHECK constraints of the Owner table declaration. -/
def ownerChecks (r : OwnerRow) : Bool :=
  keyGlob 'O' r.ownerNo && !containsDigit r.ownerName &&
  phoneGlob r.ownerPhone && r.ownerPhone.length == 12

/-- The CHECK constraints of the Staff table declaration. -/
def staffChecks (r : StaffRow) : Bool :=
  keyGlob 'S' r.staffNo && !containsDigit r.staffName &&
  phoneGlob r.staffPhone && dateCheck r.dateOfBirth &&
  positionCheck r.position && salaryCheck r.salary

/-- The CHECK constraints of the Pet table declaration. -/
def petChecks (r : PetRow) : Bool :=
  keyGlob 'P' r.petNo && !containsDigit r.petName &&
  sqliteDateValid r.petDateOfBirth && speciesList.contains r.species

/-- The CHECK constraints of the Examination table declaration. -/
def examChecks (r : ExamRow) : Bool :=
  keyGlob 'E' r.examNo && decide (r.chiefComplaint.length ≤ 500) &&
  lenLe500 r.description && sqliteDateValid r.dateSeen

/-- The database: one slot per table of the schema; `none` means the table
does not currently exist, `some rows` the table with its rows in rowid
(insertion) order. -/
structure DB where
  clinic : Option (List ClinicRow)
  owner : Option (List OwnerRow)
  staff : Option (List StaffRow)
  pet : Option (List PetRow)
  exam : Option (List ExamRow)
deriving DecidableEq

def setClinic (db : DB) (v : Option (List ClinicRow)) : DB :=
  ⟨v, db.owner, db.staff, db.pet, db.exam⟩

def setOwner (db : DB) (v : Option (List OwnerRow)) : DB :=
  ⟨db.clinic, v, db.staff, db.pet, db.exam⟩

def setStaff (db : DB) (v : Option (List StaffRow)) : DB :=
  ⟨db.clinic, db.owner, v, db.pet, db.exam⟩

def setPet (db : DB) (v : Option (List PetRow)) : DB :=
  ⟨db.clinic, db.owner, db.staff, v, db.exam⟩

def setExam (db : DB) (v : Option (List ExamRow)) : DB :=
  ⟨db.clinic, db.owner, db.staff, db.pet, v⟩

/-- `INSERT INTO Clinic ...` against database `db`: fails if the table is
missing, a CHECK fails, the key duplicates an existing `clinicNo`, or the
phone duplicates an existing `clinicPhone`; otherwise appends the row. -/
def insertClinicRow (db : DB) (r : ClinicRow) : Except String DB :=
  match db.clinic with
  | none => .error "no such table: Clinic"
  | some cs =>
    if !clinicChecks r then .error "CHECK constraint failed: Clinic"
    else if cs.any (fun c => c.clinicNo == r.clinicNo) then
      .error "UNIQUE constraint failed: Clinic.clinicNo"
    else if cs.any (fun c => c.clinicPhone == r.clinicPhone) then
      .error "UNIQUE constraint failed: Clinic.clinicPhone"
    else .ok (setClinic db (some (cs ++ [r])))

/-- `INSERT INTO Owner ...`, analogous to the Clinic insert. -/
def insertOwnerRow (db : DB) (r : OwnerRow) : Except String DB :=
  match db.owner with
  | none => .error "no such table: Owner"
  | some os =>
    if !ownerChecks r then .error "CHECK constraint failed: Owner"
    else if os.any (fun o => o.ownerNo == r.ownerNo) then
      .error "UNIQUE constraint failed: Owner.ownerNo"
    else if os.any (fun o => o.ownerPhone == r.ownerPhone) then
      .error "UNIQUE constraint failed: Owner.ownerPhone"
    else .ok (setOwner db (some (os ++ [r])))

/-- `INSERT INTO Staff ...`: CHECKs, key and phone uniqueness, then the
`FOREIGN KEY(clinicNo) REFERENCES Clinic(clinicNo)` check (`PRAGMA
foreign_keys = ON` is set at connection time). -/
def insertStaffRow (db : DB) (r : StaffRow) : Except String DB :=
  match db.staff with
  | none => .error "no such table: Staff"
  | some ss =>
    if !staffChecks r then .error "CHECK constraint failed: Staff"
    else if ss.any (fun s => s.staffNo == r.staffNo) then
      .error "UNIQUE constraint failed: Staff.staffNo"
    else if ss.any (fun s => s.staffPhone == r.staffPhone) then
      .error "UNIQUE constraint failed: Staff.staffPhone"
    else
      match db.clinic with
      | none => .error "no such table: main.Clinic"
      | some cs =>
        if cs.any (fun c => c.clinicNo == r.clinicNo) then
          .ok (setStaff db (some (ss ++ [r])))
        else .error "FOREIGN KEY constraint failed"

/-- `INSERT INTO Pet ...`: CHECKs, key uniqueness, then the foreign keys
into Owner and Clinic. -/
def insertPetRow (db : DB) (r : PetRow) : Except String DB :=
  match db.pet with
  | none => .error "no such table: Pet"
  | some ps =>
    if !petChecks r then .error "CHECK constraint failed: Pet"
    else if ps.any (fun p => p.petNo == r.petNo) then
      .error "UNIQUE constraint failed: Pet.petNo"
    else
      match db.owner with
      | none => .error "no such table: main.Owner"
      | some os =>
        if os.any (fun o => o.ownerNo == r.ownerNo) then
          match db.clinic with
          | none => .error "no such table: main.Clinic"
          | some cs =>
            if cs.any (fun c => c.clinicNo == r.clinicNo) then
              .ok (setPet db (some (ps ++ [r])))
            else .error "FOREIGN KEY constraint failed"
        else .error "FOREIGN KEY constraint failed"

/-- `INSERT INTO Examination ...`: CHECKs, key uniqueness, then the foreign
keys into Pet and Staff. -/
def insertExamRow (db : DB) (r : ExamRow) : Except String DB :=
  match db.exam with
  | none => .error "no such table: Examination"
  | some es =>
    if !examChecks r then .error "CHECK constraint failed: Examination"
    else if es.any (fun e => e.examNo == r.examNo) then
      .error "UNIQUE constraint failed: Examination.examNo"
    else
      match db.pet with
      | none => .error "no such table: main.Pet"
      | some ps =>
        if ps.any (fun p => p.petNo == r.petNo) then
          match db.staff with
          | none => .error "no such table: main.Staff"
          | some ss =>
            if ss.any (fun s => s.staffNo == r.staffNo) then
              .ok (setExam db (some (es ++ [r])))
            else .error "FOREIGN KEY constraint failed"
        else .error "FOREIGN KEY constraint failed"

/-- Replace a staff row's `clinicNo` (the only field the program ever
updates in place). -/
def withClinicNo (s : StaffRow) (v : String) : StaffRow :=
  ⟨s.staffNo, s.staffName, s.staffAddress, s.staffPhone,
   s.dateOfBirth, s.position, s.salary, v⟩

/-- The per-row effect of `SET clinicNo = ? WHERE staffNo = ?`. -/
def updStaff (newClinicNo staffNo : String) (s : StaffRow) : StaffRow :=
  if s.staffNo == staffNo then withClinicNo s newClinicNo else s

/-- `UPDATE Staff SET clinicNo = ? WHERE staffNo = ?`: when at least one row
matches, each updated row's new `clinicNo` must satisfy the foreign key into
Clinic or the whole statement fails with no row changed (SQLite's default
ABORT resolution); when no row matches the statement is a successful no-op
and no foreign-key check runs. -/
def updateStaffClinicRow (db : DB) (newClinicNo staffNo : String) :
    Except String DB :=
  match db.staff with
  | none => .error "no such table: Staff"
  | some ss =>
    if ss.any (fun s => s.staffNo == staffNo) then
      match db.clinic with
      | none => .error "no such table: main.Clinic"
      | some cs =>
        if cs.any (fun c => c.clinicNo == newClinicNo) then
          .ok (setStaff db (some (ss.map (updStaff newClinicNo staffNo))))
        else .error "FOREIGN KEY constraint failed"
    else .ok db

/-- The five table names of the schema. -/
inductive TableName where
  | clinic | owner | staff | pet | exam
deriving DecidableEq

/-- Whether some existing child-table row references a key present in table
`t`: with `PRAGMA foreign_keys = ON`, `DROP TABLE t` performs an implicit
`DELETE FROM t`, which fails if a row of a referencing table points at a row
being deleted.  The referencing pairs are exactly the FOREIGN KEY clauses of
the schema: Staff→Clinic, Pet→Clinic, Pet→Owner, Examination→Pet,
Examination→Staff; no table references Examination. -/
def rowsReferencing (db : DB) : TableName → Bool
  | .clinic =>
      (match db.clinic, db.staff with
       | some cs, some ss =>
           ss.any (fun s => cs.any (fun c => c.clinicNo == s.clinicNo))
       | _, _ => false) ||
      (match db.clinic, db.pet with
       | some cs, some ps =>
           ps.any (fun p => cs.any (fun c => c.clinicNo == p.clinicNo))
       | _, _ => false)
  | .owner =>
      match db.owner, db.pet with
      | some os, some ps =>
          ps.any (fun p => os.any (fun o => o.ownerNo == p.ownerNo))
      | _, _ => false
  | .staff =>
      match db.staff, db.exam with
      | some ss, some es =>
          es.any (fun e => ss.any (fun s => s.staffNo == e.staffNo))
      | _, _ => false
  | .pet =>
      match db.pet, db.exam with
      | some ps, some es =>
          es.any (fun e => ps.any (fun p => p.petNo == e.petNo))
      | _, _ => false
  | .exam => false

/-- `DROP TABLE IF EXISTS t`: a no-op success when the table is absent;
otherwise fails if a remaining child row references a row of `t`, else
removes the table. -/
def dropTableRun (db : DB) (t : TableName) : Except String DB :=
  match t with
  | .clinic =>
    match db.clinic with
    | none => .ok db
    | some _ =>
      if rowsReferencing db .clinic then .error "FOREIGN KEY constraint failed"
      else .ok (setClinic db none)
  | .owner =>
    match db.owner with
    | none => .ok db
    | some _ =>
      if rowsReferencing db .owner then .error "FOREIGN KEY constraint failed"
      else .ok (setOwner db none)
  | .staff =>
    match db.staff with
    | none => .ok db
    | some _ =>
      if rowsReferencing db .staff then .error "FOREIGN KEY constraint failed"
      else .ok (setStaff db none)
  | .pet =>
    match db.pet with
    | none => .ok db
    | some _ =>
      if rowsReferencing db .pet then .error "FOREIGN KEY constraint failed"
      else .ok (setPet db none)
  | .exam =>
    match db.exam with
    | none => .ok db
    | some _ =>
      if rowsReferencing db .exam then .error "FOREIGN KEY constraint failed"
      else .ok (setExam db none)

/-- `CREATE TABLE IF NOT EXISTS t (...)`: keeps an existing table (and its
rows) untouched, otherwise creates it empty.  SQLite does not validate
foreign-key targets at creation time, so this never fails. -/
def createTableRun (db : DB) (t : TableName) : Except String DB :=
  match t with
  | .clinic =>
    match db.clinic with
    | some _ => .ok db
    | none => .ok (setClinic db (some []))
  | .owner =>
    match db.owner with
    | some _ => .ok db
    | none => .ok (setOwner db (some []))
  | .staff =>
    match db.staff with
    | some _ => .ok db
    | none => .ok (setStaff db (some []))
  | .pet =>
    match db.pet with
    | some _ => .ok db
    | none => .ok (setPet db (some []))
  | .exam =>
    match db.exam with
    | some _ => .ok db
    | none => .ok (setExam db (some []))

/-- The write statements the program issues (each `cursor.execute` /
`cursor.executemany` call site instantiates one of these). -/
inductive Stmt where
  | insertClinic (r : ClinicRow)
  | insertOwner (r : OwnerRow)
  | insertStaff (r : StaffRow)
  | insertPet (r : PetRow)
  | insertExam (r : ExamRow)
  | updateStaffClinic (newClinicNo staffNo : String)
  | dropTable (t : TableName)
  | createTable (t : TableName)
deriving DecidableEq

/-- One statement against the working database: either the statement's whole
effect or an error with no effect (SQLite statements are atomic — a failed
statement backs out its own partial changes). -/
def runStmt : Stmt → DB → Except String DB
  | .insertClinic r, db => insertClinicRow db r
  | .insertOwner r, db => insertOwnerRow db r
  | .insertStaff r, db => insertStaffRow db r
  | .insertPet r, db => insertPetRow db r
  | .insertExam r, db => insertExamRow db r
  | .updateStaffClinic n s, db => updateStaffClinicRow db n s
  | .dropTable t, db => dropTableRun db t
  | .createTable t, db => createTableRun db t

/-- A sqlite3 connection as the Python module manages it in legacy
transaction mode: `committed` is the durable database, `pending` the working
copy of an open implicit transaction (`none` when no transaction is open).
Reads and statements on the connection see `pending` when present;
`conn.commit()` publishes it. -/
structure Conn where
  committed : DB
  pending : Option DB
deriving DecidableEq

/-- The database visible to statements and reads on the connection. -/
def visible (c : Conn) : DB := c.pending.getD c.committed

/-- `execute_query(conn, query, params)`: runs one statement and calls
`conn.commit()` on success, returning `(True, None)`; on a `sqlite3.Error`
it returns `(False, str(e))` without committing — the failed statement
itself changed nothing, so the connection is unchanged. -/
def execute_query (c : Conn) (q : Stmt) : (Bool × Option String) × Conn :=
  match runStmt q (visible c) with
  | .ok db => ((true, none), ⟨db, none⟩)
  | .error e => ((false, some e), c)

/-- `cursor.executemany` applied statement by statement: on the first
failing statement it stops, reporting the working database reached so far
(the failing statement itself has no effect) and the diagnostic. -/
def runMany (db : DB) : List Stmt → Except (DB × String) DB
  | [] => .ok db
  | s :: rest =>
    match runStmt s db with
    | .ok db2 => runMany db2 rest
    | .error e => .error (db, e)

/-- `execute_many(conn, query, data)`: applies the one parameterized
statement to each tuple in order, then `conn.commit()` after the loop.  On
a `sqlite3.Error` it returns `(False, str(e))` without commit and without
rollback: the tuples already applied stay in the open implicit transaction
as the connection's pending state. -/
def execute_many {α : Type} (c : Conn) (mk : α → Stmt) (data : List α) :
    (Bool × Option String) × Conn :=
  match runMany (visible c) (data.map mk) with
  | .ok db => ((true, none), ⟨db, none⟩)
  | .error (dbp, e) => ((false, some e), ⟨c.committed, some dbp⟩)

/-- The read queries the program issues through `fetch_query`. -/
inductive Query where
  | clinicByNo (no : String)
  | ownerByNo (no : String)
  | staffByNo (no : String)
  | petByNo (no : String)
  | examByNo (no : String)
  | petsByClinic (clinicNo : String)
  | examReportByStaff (staffNo : String)
deriving DecidableEq

/-- A projected row of `SELECT petNo, petName, petDateOfBirth, species,
breed, color, ownerNo FROM Pet WHERE clinicNo = ?`. -/
structure PetByClinicRow where
  petNo : String
  petName : String
  petDateOfBirth : String
  species : String
  breed : Option String
  color : Option String
  ownerNo : String
deriving DecidableEq

/-- A row of the Examination ⋈ Pet report of transaction 5. -/
structure ExamReportRow where
  examNo : String
  chiefComplaint : String
  description : Option String
  dateSeen : String
  actionsTaken : Option String
  petName : String
  species : String
  breed : Option String
  ownerNo : String
deriving DecidableEq

/-- One result row of a read query. -/
inductive Row where
  | clinic (r : ClinicRow)
  | owner (r : OwnerRow)
  | staff (r : StaffRow)
  | pet (r : PetRow)
  | exam (r : ExamRow)
  | petByClinic (r : PetByClinicRow)
  | examReport (r : ExamReportRow)
deriving DecidableEq

/-- Project a Pet row for the by-clinic listing. -/
def projectPet (p : PetRow) : PetByClinicRow :=
  ⟨p.petNo, p.petName, p.petDateOfBirth, p.species, p.breed, p.color, p.ownerNo⟩

/-- Join one Examination row with the Pet rows matching its `petNo`. -/
def joinExamPet (ps : List PetRow) (e : ExamRow) : List Row :=
  (ps.filter (fun p => p.petNo == e.petNo)).map (fun p =>
    Row.examReport ⟨e.examNo, e.chiefComplaint, e.description, e.dateSeen,
      e.actionsTaken, p.petName, p.species, p.breed, p.ownerNo⟩)

/-- Evaluate a read query against the database: an error when a table the
query needs is missing, otherwise the matching rows in stored order. -/
def runQuery : Query → DB → Except String (List Row)
  | .clinicByNo no, db =>
    match db.clinic with
    | none => .error "no such table: Clinic"
    | some cs => .ok ((cs.filter (fun c => c.clinicNo == no)).map Row.clinic)
  | .ownerByNo no, db =>
    match db.owner with
    | none => .error "no such table: Owner"
    | some os => .ok ((os.filter (fun o => o.ownerNo == no)).map Row.owner)
  | .staffByNo no, db =>
    match db.staff with
    | none => .error "no such table: Staff"
    | some ss => .ok ((ss.filter (fun s => s.staffNo == no)).map Row.staff)
  | .petByNo no, db =>
    match db.pet with
    | none => .error "no such table: Pet"
    | some ps => .ok ((ps.filter (fun p => p.petNo == no)).map Row.pet)
  | .examByNo no, db =>
    match db.exam with
    | none => .error "no such table: Examination"
    | some es => .ok ((es.filter (fun e => e.examNo == no)).map Row.exam)
  | .petsByClinic no, db =>
    match db.pet with
    | none => .error "no such table: Pet"
    | some ps =>
      .ok ((ps.filter (fun p => p.clinicNo == no)).map
        (fun p => Row.petByClinic (projectPet p)))
  | .examReportByStaff no, db =>
    match db.exam with
    | none => .error "no such table: Examination"
    | some es =>
      match db.pet with
      | none => .error "no such table: Pet"
      | some ps =>
        .ok ((es.filter (fun e => e.staffNo == no)).flatMap (joinExamPet ps))

/-- `pd.read_sql_query` re-raises an execute-time `sqlite3.Error` wrapped
as `pandas.errors.DatabaseError` with message
`Execution failed on sql '...': <original>`; the wrapper keeps the original
diagnostic (the SQL text itself is not tracked by this model). -/
def pandasWrap (e : String) : String := "Execution failed on sql: " ++ e

/-- `fetch_query(conn, query, params)`: reads through the same connection
(so it sees the pending transaction).  On success pandas hands back the
rows.  On an execute-time store fault, pandas rolls back the connection's
open transaction and re-raises the fault wrapped as
`pandas.errors.DatabaseError`; that wrapper subclasses `OSError`, not
`sqlite3.Error`, so the function's `except sqlite3.Error` clause does not
catch it and the exception propagates to `fetch_query`'s caller.  The
result is the returned row set or the escaping exception, paired with the
connection as the call leaves it (rolled back on failure). -/
def fetch_query (c : Conn) (q : Query) : Except String (List Row) × Conn :=
  match runQuery q (visible c) with
  | .ok rows => (.ok rows, c)
  | .error e => (.error (pandasWrap e), ⟨c.committed, none⟩)

/-- `create_connection(db_file)`: the argument models the outcome of
`sqlite3.connect` on the named file — the store's current database, or the
connection-time `sqlite3.Error` text.  On success the connection starts with
no open transaction (and `PRAGMA foreign_keys = ON`, which `runStmt`
assumes); on error the function prints the diagnostic and returns `None`. -/
def create_connection (store : Except String DB) : Option Conn :=
  match store with
  | .ok db => some ⟨db, none⟩
  | .error _ => none

/-- Outcome of the owner step of transaction 1. -/
inductive OwnerStep where
  | existed
  | inserted
  | failed (e : Option String)
deriving DecidableEq

/-- Result of transaction 1: the owner-step outcome, the pet insert's
`(success, error)` pair, and the connection afterwards. -/
structure Tx1Result where
  ownerStep : OwnerStep
  petResult : Bool × Option String
  conn : Conn
deriving DecidableEq

/-- Transaction 1 of `main` ("Add a New Pet"): point-query the owner key;
if that read raises (see `fetch_query`), the uncaught exception aborts the
whole transaction before any insert; otherwise, if the owner is absent,
insert the owner (branching only to print); then, in every case of the
owner step, attempt the pet insert. -/
def addOwnerAndPet (c : Conn) (ow : OwnerRow) (p : PetRow) :
    Except String Tx1Result :=
  match fetch_query c (.ownerByNo ow.ownerNo) with
  | (.error e, _) => .error e
  | (.ok rows, c0) =>
    if rows.isEmpty then
      let r1 := execute_query c0 (.insertOwner ow)
      let r2 := execute_query r1.2 (.insertPet p)
      .ok ⟨if r1.1.1 then .inserted else .failed r1.1.2, r2.1, r2.2⟩
    else
      let r2 := execute_query c0 (.insertPet p)
      .ok ⟨.existed, r2.1, r2.2⟩

/-- Run a list of statements through `execute_query` in order, reporting
whether every one succeeded. -/
def runScript (c : Conn) : List Stmt → Bool × Conn
  | [] => (true, c)
  | s :: rest =>
    let r := execute_query c s
    let rs := runScript r.2 rest
    (r.1.1 && rs.1, rs.2)

/-- `drop_tables`: drops in reverse-dependency order Examination, Pet,
Staff, Owner, Clinic. -/
def drop_tables (c : Conn) : Bool × Conn :=
  runScript c ([.exam, .pet, .staff, .owner, .clinic].map Stmt.dropTable)

/-- `create_tables`: creates in dependency order Clinic, Owner, Staff, Pet,
Examination (the iteration order of the `table_queries` dict). -/
def create_tables (c : Conn) : Bool × Conn :=
  runScript c ([.clinic, .owner, .staff, .pet, .exam].map Stmt.createTable)

/-- `drop_tables` followed by `create_tables`, as `main` performs it;
the flag records that every statement of both runs succeeded. -/
def resetSchema (c : Conn) : Bool × Conn :=
  let d := drop_tables c
  let r := create_tables d.2
  (d.1 && r.1, r.2)

/-- The schema right after a first-time initialization: all five tables
present and empty. -/
def emptySchema : DB := ⟨some [], some [], some [], some [], some []⟩

/-- A connection to a freshly initialized, empty store. -/
def freshConn : Conn := ⟨emptySchema, none⟩

/-- Seed clinic `C000001` from `main`. -/
def clinic1 : ClinicRow :=
  ⟨"C000001", "Downtown Veterinary Clinic",
   "123 Main St, New York, NY 10001", "212-555-0101"⟩

/-- Seed clinic `C000002` from `main`. -/
def clinic2 : ClinicRow :=
  ⟨"C000002", "Uptown Animal Hospital",
   "456 Elm St, Los Angeles, CA 90001", "213-555-0202"⟩

/-- Seed owner `O000001` from `main`. -/
def owner1 : OwnerRow :=
  ⟨"O000001", "John Doe", "100 First St, Boston, MA 02108", "617-555-0606"⟩

/-- Seed staff `S000001` from `main`. -/
def staff1 : StaffRow :=
  ⟨"S000001", "Dr. Emily Davis", "101 First St, New York, NY 10001",
   "212-555-1111", some "1975-05-15", some "Veterinarian",
   some (85000 : Rat), "C000001"⟩

/-- Seed pet `P000001` from `main`. -/
def pet1 : PetRow :=
  ⟨"P000001", "Buddy", "2015-06-01", "Dog", some "Golden Retriever",
   some "Golden", "O000001", "C000001"⟩

/-- Seed examination `E000001` from `main`. -/
def exam1 : ExamRow :=
  ⟨"E000001", "Annual Checkup", some "Routine physical examination",
   "2023-01-15", some "Vaccinated, dewormed", "P000001", "S000001"⟩

/-- A small populated database: the schema with one seed row per table. -/
def sampleDB : DB :=
  ⟨some [clinic1, clinic2], some [owner1], some [staff1], some [pet1],
   some [exam1]⟩

/-- A connection to the populated sample store, no transaction open. -/
def sampleConn : Conn := ⟨sampleDB, none⟩

/-- The new pet `P000006` of transaction 1, re-pointed at owner `O000001`. -/
def pet6 : PetRow :=
  ⟨"P000006", "Bella", "2021-06-15", "Dog", some "Poodle", some "White",
   "O000001", "C000001"⟩

/-- A pet insert whose `ownerNo` (`O000007`) matches no Owner row. -/
def petBadFK : PetRow :=
  ⟨"P000007", "Rex", "2021-06-15", "Dog", none, none, "O000007", "C000001"⟩

/-- A fresh clinic row with a correctly formatted, unused key. -/
def clinic6 : ClinicRow :=
  ⟨"C000006", "North End Vet", "654 Maple St, Phoenix, AZ 85001",
   "602-555-0505"⟩

/-- The new owner `O000006` of transaction 1. -/
def owner6 : OwnerRow :=
  ⟨"O000006", "Karen Taylor", "606 Sixth St, Philadelphia, PA 19102",
   "215-555-1212"⟩

/-- A fresh staff row assigned to the existing clinic `C000001`. -/
def staff6 : StaffRow :=
  ⟨"S000006", "Mark Wilson", "505 Fifth St, Phoenix, AZ 85001",
   "602-555-5555", some "1988-02-05", some "Technician",
   some (45000 : Rat), "C000001"⟩

/-- The new examination `E000006` of transaction 2, on seed pet and staff. -/
def exam6 : ExamRow :=
  ⟨"E000006", "Skin rash", some "Examined skin for dermatitis",
   "2023-06-10", some "Prescribed topical ointment", "P000001", "S000001"⟩

/-- A clinic row whose key has only five digits. -/
def clinicBadKey : ClinicRow :=
  ⟨"C00001", "Elm Vet", "1 Elm St", "999-555-9990"⟩

/-- An owner row whose key has a lowercase tag. -/
def ownerBadKey : OwnerRow :=
  ⟨"o000009", "Pat Lee", "2 Oak St", "999-555-9991"⟩

/-- A staff row whose key has seven digits. -/
def staffBadKey : StaffRow :=
  ⟨"S0000001", "Lee Park", "3 Ash St", "999-555-9992",
   some "1990-01-01", some "Nurse", some (40000 : Rat), "C000001"⟩

/-- A pet row whose key tag is wrong. -/
def petBadKey : PetRow :=
  ⟨"Q000009", "Rocky", "2020-01-01", "Dog", none, none, "O000001", "C000001"⟩

/-- An examination row whose key ends in a letter. -/
def examBadKey : ExamRow :=
  ⟨"E00000X", "Cough", none, "2023-06-10", none, "P000001", "S000001"⟩

/-- A staff row with NULL position and salary (other constraints met). -/
def staffNullPosSal : StaffRow :=
  ⟨"S000007", "Jo Day", "7 Oak St", "999-555-9993", some "1990-01-01",
   none, none, "C000001"⟩

/-- A staff row with NULL dateOfBirth. -/
def staffNullDob : StaffRow :=
  ⟨"S000008", "Al Ray", "8 Oak St", "999-555-9994", none, some "Nurse",
   some (40000 : Rat), "C000001"⟩

/-- The database with no tables at all. -/
def allNone : DB := ⟨none, none, none, none, none⟩

/-- The sample store with the Pet table dropped (so Pet reads error). -/
def noPetDB : DB := ⟨some [], some [], some [], none, some []⟩

/-- A connection to the store whose Pet table is missing. -/
def noPetConn : Conn := ⟨noPetDB, none⟩


lemma execute_query_ok_eq (c : Conn) (q : Stmt) (db : DB)
    (h : runStmt q (visible c) = .ok db) :
    execute_query c q = ((true, none), ⟨db, none⟩) := by
  simp [execute_query, h]

lemma execute_query_error_eq (c : Conn) (q : Stmt) (e : String)
    (h : runStmt q (visible c) = .error e) :
    execute_query c q = ((false, some e), c) := by
  simp [execute_query, h]

lemma execute_query_fail_conn (c : Conn) (q : Stmt)
    (h : (execute_query c q).1.1 = false) :
    (execute_query c q).2 = c := by
  cases hr : runStmt q (visible c) with
  | ok db => rw [execute_query_ok_eq c q db hr] at h; simp at h
  | error e => rw [execute_query_error_eq c q e hr]

lemma fetch_query_ok_eq (c : Conn) (q : Query) (rows : List Row)
    (h : runQuery q (visible c) = .ok rows) :
    fetch_query c q = (.ok rows, c) := by
  simp [fetch_query, h]

lemma fetch_query_error_eq (c : Conn) (q : Query) (e : String)
    (h : runQuery q (visible c) = .error e) :
    fetch_query c q = (.error (pandasWrap e), ⟨c.committed, none⟩) := by
  simp [fetch_query, h]

lemma fetch_query_fst_ok (c : Conn) (q : Query) (rows : List Row)
    (h : (fetch_query c q).1 = .ok rows) :
    fetch_query c q = (.ok rows, c) := by
  cases hr : runQuery q (visible c) with
  | ok rs =>
    have he := fetch_query_ok_eq c q rs hr
    rw [he] at h
    simp at h
    rw [he, h]
  | error e =>
    rw [fetch_query_error_eq c q e hr] at h
    simp at h

lemma filter_of_any_false {α : Type} (p : α → Bool) (l : List α)
    (h : l.any p = false) : l.filter p = [] := by
  induction l with
  | nil => rfl
  | cons x xs ih =>
    simp only [List.any_cons, Bool.or_eq_false_iff] at h
    simp [List.filter, h.1, ih h.2]

/-- Claim C4: `execute_query` runs its statement under an implicit
transaction that commits on success; a call that returns a failure leaves
the connection, and hence every subsequent read, exactly as before it. -/
theorem C4_single_statement_atomic (c : Conn) (q : Stmt) :
    (∀ db, runStmt q (visible c) = .ok db →
      execute_query c q = ((true, none), ⟨db, none⟩)) ∧
    ((execute_query c q).1.1 = false →
      (execute_query c q).2 = c ∧
      ∀ qu, fetch_query (execute_query c q).2 qu = fetch_query c qu) := by
  refine ⟨fun db h => execute_query_ok_eq c q db h, fun h => ?_⟩
  have h2 := execute_query_fail_conn c q h
  exact ⟨h2, fun qu => by rw [h2]⟩

theorem C4_witness :
    execute_query sampleConn (.insertPet pet6)
      = ((true, none), ⟨setPet sampleDB (some [pet1, pet6]), none⟩) ∧
    (execute_query sampleConn (.insertPet pet1)).2 = sampleConn ∧
    fetch_query (execute_query sampleConn (.insertPet pet1)).2
        (.petByNo "P000001")
      = fetch_query sampleConn (.petByNo "P000001") :=
  ⟨(C4_single_statement_atomic sampleConn (.insertPet pet6)).1 _ (by decide),
   ((C4_single_statement_atomic sampleConn (.insertPet pet1)).2 (by decide)).1,
   ((C4_single_statement_atomic sampleConn (.insertPet pet1)).2 (by decide)).2
     (.petByNo "P000001")⟩

/-- Claim C9 counterexample: on a read whose underlying query fails
("no such table: Pet"), `fetch_query` does not return an empty row set:
pandas wraps the fault in `DatabaseError`, which escapes the
`except sqlite3.Error` clause to the caller (after the open transaction is
rolled back) — unlike a successful read matching no rows, which does
return the empty row set. -/
theorem C9_counterexample :
    runQuery (.petByNo "P000001") (visible noPetConn)
      = .error "no such table: Pet" ∧
    (fetch_query noPetConn (.petByNo "P000001")).1
      = .error (pandasWrap "no such table: Pet") ∧
    (fetch_query noPetConn (.petByNo "P000001")).1 ≠ .ok [] ∧
    (fetch_query freshConn (.petByNo "P000001")).1 = .ok [] := by
  decide

/-- Claim C9 as amended: a read whose underlying query fails with a
store-level error does not return an empty row set to the caller — pandas
rolls back the connection's open transaction and the fault, wrapped as
`pandas.errors.DatabaseError`, escapes `fetch_query`'s
`except sqlite3.Error` clause uncaught; only a successful query (in
particular one matching no rows) returns its row set, with the connection
untouched. -/
theorem C9_read_fault_escapes (c : Conn) (q : Query) :
    (∀ e, runQuery q (visible c) = .error e →
      fetch_query c q = (.error (pandasWrap e), ⟨c.committed, none⟩)) ∧
    (∀ rows, runQuery q (visible c) = .ok rows →
      fetch_query c q = (.ok rows, c)) :=
  ⟨fun e h => fetch_query_error_eq c q e h,
   fun rows h => fetch_query_ok_eq c q rows h⟩

theorem C9_witness :
    fetch_query noPetConn (.petByNo "P000001")
      = (.error (pandasWrap "no such table: Pet"), ⟨noPetDB, none⟩) ∧
    fetch_query freshConn (.petByNo "P000001") = (.ok [], freshConn) :=
  ⟨(C9_read_fault_escapes noPetConn (.petByNo "P000001")).1
     "no such table: Pet" (by decide),
   (C9_read_fault_escapes freshConn (.petByNo "P000001")).2 [] (by decide)⟩

/-- Claim C5 counterexample: the claim fails in both directions at concrete
inputs — a failed `create_connection` returns `none` whatever the
diagnostic was, carrying no text to the caller, and a failed read is not
converted to a failure value at all: the pandas-wrapped fault escapes
`fetch_query` to its caller as an exception. -/
theorem C5_counterexample :
    create_connection (.error "unable to open database file") = none ∧
    create_connection (.error "database is locked") = none ∧
    runQuery (.petByNo "P000001") (visible noPetConn)
      = .error "no such table: Pet" ∧
    (fetch_query noPetConn (.petByNo "P000001")).1
      = .error (pandasWrap "no such table: Pet") := by
  decide

/-- Claim C5 as amended: `execute_query` and `execute_many` catch every
store-level fault and return the failure paired with the original
diagnostic text; `create_connection` catches connection-time faults but
returns `None`, printing rather than returning the diagnostic; and
`fetch_query` does not contain execute-time faults at all — pandas rolls
back the open transaction and the wrapped fault escapes its
`except sqlite3.Error` clause uncaught to the caller. -/
theorem C5_fault_handling :
    (∀ (c : Conn) (q : Stmt) (e : String),
      runStmt q (visible c) = .error e →
      (execute_query c q).1 = (false, some e)) ∧
    (∀ (α : Type) (c : Conn) (mk : α → Stmt) (data : List α)
        (dbp : DB) (e : String),
      runMany (visible c) (data.map mk) = .error (dbp, e) →
      (execute_many c mk data).1 = (false, some e)) ∧
    (∀ e, create_connection (.error e) = none) ∧
    (∀ (c : Conn) (q : Query) (e : String),
      runQuery q (visible c) = .error e →
      (fetch_query c q).1 = .error (pandasWrap e) ∧
      (fetch_query c q).2 = ⟨c.committed, none⟩) := by
  refine ⟨fun c q e h => ?_, fun α c mk data dbp e h => ?_, fun e => rfl,
    fun c q e h => ?_⟩
  · simp [execute_query, h]
  · simp [execute_many, h]
  · rw [fetch_query_error_eq c q e h]
    exact ⟨rfl, rfl⟩

theorem C5_witness :
    (execute_query noPetConn (.insertPet pet6)).1
      = (false, some "no such table: Pet") ∧
    (execute_many freshConn Stmt.insertOwner [owner1, owner1]).1
      = (false, some "UNIQUE constraint failed: Owner.ownerNo") ∧
    create_connection (.error "unable to open database file") = none ∧
    (fetch_query noPetConn (.petByNo "P000001")).1
      = .error (pandasWrap "no such table: Pet") ∧
    (fetch_query noPetConn (.petByNo "P000001")).2 = ⟨noPetDB, none⟩ :=
  ⟨C5_fault_handling.1 noPetConn (.insertPet pet6)
     "no such table: Pet" (by decide),
   C5_fault_handling.2.1 OwnerRow freshConn Stmt.insertOwner [owner1, owner1]
     (setOwner emptySchema (some [owner1]))
     "UNIQUE constraint failed: Owner.ownerNo" (by decide),
   C5_fault_handling.2.2.1 "unable to open database file",
   (C5_fault_handling.2.2.2 noPetConn (.petByNo "P000001")
      "no such table: Pet" (by decide)).1,
   (C5_fault_handling.2.2.2 noPetConn (.petByNo "P000001")
      "no such table: Pet" (by decide)).2⟩

lemma insertPetRow_fk_fail (db : DB) (ps : List PetRow) (os : List OwnerRow)
    (cs : List ClinicRow) (r : PetRow) (hp : db.pet = some ps)
    (ho : db.owner = some os) (hc : db.clinic = some cs)
    (h : os.any (fun o => o.ownerNo == r.ownerNo) = false ∨
      cs.any (fun cl => cl.clinicNo == r.clinicNo) = false) :
    ∃ e, insertPetRow db r = .error e := by
  simp only [insertPetRow, hp, ho, hc]
  split_ifs with h1 h2 h3 h4 <;> simp_all

lemma insertPetRow_fk_ok (db : DB) (ps : List PetRow) (os : List OwnerRow)
    (cs : List ClinicRow) (r : PetRow) (hp : db.pet = some ps)
    (ho : db.owner = some os) (hc : db.clinic = some cs)
    (h1 : os.any (fun o => o.ownerNo == r.ownerNo) = true)
    (h2 : cs.any (fun cl => cl.clinicNo == r.clinicNo) = true)
    (h3 : petChecks r = true)
    (h4 : ps.any (fun p => p.petNo == r.petNo) = false) :
    insertPetRow db r = .ok (setPet db (some (ps ++ [r]))) := by
  simp [insertPetRow, hp, ho, hc, h1, h2, h3, h4]

/-- Claim C1: inserting a Pet whose `ownerNo` or `clinicNo` references no
existing Owner/Clinic row fails and adds no row; when both references exist
(and the row's other constraints hold) the insert succeeds and a point
query on its `petNo` returns exactly that row. -/
theorem C1_pet_referential_integrity (c : Conn) (ps : List PetRow)
    (os : List OwnerRow) (cs : List ClinicRow) (r : PetRow)
    (hp : (visible c).pet = some ps) (ho : (visible c).owner = some os)
    (hc : (visible c).clinic = some cs) :
    ((os.any (fun o => o.ownerNo == r.ownerNo) = false ∨
      cs.any (fun cl => cl.clinicNo == r.clinicNo) = false) →
      (execute_query c (.insertPet r)).1.1 = false ∧
      (execute_query c (.insertPet r)).2 = c) ∧
    (os.any (fun o => o.ownerNo == r.ownerNo) = true →
     cs.any (fun cl => cl.clinicNo == r.clinicNo) = true →
     petChecks r = true →
     ps.any (fun p => p.petNo == r.petNo) = false →
      (execute_query c (.insertPet r)).1 = (true, none) ∧
      (fetch_query (execute_query c (.insertPet r)).2 (.petByNo r.petNo)).1
        = .ok [Row.pet r]) := by
  constructor
  · intro h
    obtain ⟨e, he⟩ := insertPetRow_fk_fail (visible c) ps os cs r hp ho hc h
    have hrun : runStmt (.insertPet r) (visible c) = .error e := he
    rw [execute_query_error_eq c _ e hrun]
    exact ⟨rfl, rfl⟩
  · intro h1 h2 h3 h4
    have hrun : runStmt (.insertPet r) (visible c)
        = .ok (setPet (visible c) (some (ps ++ [r]))) :=
      insertPetRow_fk_ok (visible c) ps os cs r hp ho hc h1 h2 h3 h4
    rw [execute_query_ok_eq c _ _ hrun]
    refine ⟨rfl, ?_⟩
    have hfil : ps.filter (fun p => p.petNo == r.petNo) = [] :=
      filter_of_any_false _ ps h4
    simp [fetch_query, runQuery, visible, setPet, List.filter_append, hfil]

theorem C1_witness :
    ((execute_query sampleConn (.insertPet petBadFK)).1.1 = false ∧
     (execute_query sampleConn (.insertPet petBadFK)).2 = sampleConn) ∧
    ((execute_query sampleConn (.insertPet pet6)).1 = (true, none) ∧
     (fetch_query (execute_query sampleConn (.insertPet pet6)).2
       (.petByNo pet6.petNo)).1 = .ok [Row.pet pet6]) :=
  ⟨(C1_pet_referential_integrity sampleConn [pet1] [owner1]
      [clinic1, clinic2] petBadFK rfl rfl rfl).1 (Or.inl (by decide)),
   (C1_pet_referential_integrity sampleConn [pet1] [owner1]
      [clinic1, clinic2] pet6 rfl rfl rfl).2
     (by decide) (by decide) (by decide) (by decide)⟩

lemma insertClinicRow_badcheck (db : DB) (cs : List ClinicRow) (r : ClinicRow)
    (hc : db.clinic = some cs) (h : clinicChecks r = false) :
    insertClinicRow db r = .error "CHECK constraint failed: Clinic" := by
  simp [insertClinicRow, hc, h]

lemma insertOwnerRow_badcheck (db : DB) (os : List OwnerRow) (r : OwnerRow)
    (ho : db.owner = some os) (h : ownerChecks r = false) :
    insertOwnerRow db r = .error "CHECK constraint failed: Owner" := by
  simp [insertOwnerRow, ho, h]

lemma insertStaffRow_badcheck (db : DB) (ss : List StaffRow) (r : StaffRow)
    (hs : db.staff = some ss) (h : staffChecks r = false) :
    insertStaffRow db r = .error "CHECK constraint failed: Staff" := by
  simp [insertStaffRow, hs, h]

lemma insertPetRow_badcheck (db : DB) (ps : List PetRow) (r : PetRow)
    (hp : db.pet = some ps) (h : petChecks r = false) :
    insertPetRow db r = .error "CHECK constraint failed: Pet" := by
  simp [insertPetRow, hp, h]

lemma insertExamRow_badcheck (db : DB) (es : List ExamRow) (r : ExamRow)
    (he : db.exam = some es) (h : examChecks r = false) :
    insertExamRow db r = .error "CHECK constraint failed: Examination" := by
  simp [insertExamRow, he, h]

/-- Claim C2: for every entity, an insert whose key does not match the
entity's single-letter-tag-plus-six-digits pattern fails (leaving the
connection unchanged); a correctly formatted key that is not already
present, on a row satisfying the entity's other constraints, succeeds. -/
theorem C2_key_format (c : Conn) :
    (∀ (cs : List ClinicRow) (r : ClinicRow), (visible c).clinic = some cs →
      (keyGlob 'C' r.clinicNo = false →
        (execute_query c (.insertClinic r)).1.1 = false ∧
        (execute_query c (.insertClinic r)).2 = c) ∧
      (clinicChecks r = true →
       cs.any (fun x => x.clinicNo == r.clinicNo) = false →
       cs.any (fun x => x.clinicPhone == r.clinicPhone) = false →
        (execute_query c (.insertClinic r)).1 = (true, none))) ∧
    (∀ (os : List OwnerRow) (r : OwnerRow), (visible c).owner = some os →
      (keyGlob 'O' r.ownerNo = false →
        (execute_query c (.insertOwner r)).1.1 = false ∧
        (execute_query c (.insertOwner r)).2 = c) ∧
      (ownerChecks r = true →
       os.any (fun x => x.ownerNo == r.ownerNo) = false →
       os.any (fun x => x.ownerPhone == r.ownerPhone) = false →
        (execute_query c (.insertOwner r)).1 = (true, none))) ∧
    (∀ (ss : List StaffRow) (cs : List ClinicRow) (r : StaffRow),
      (visible c).staff = some ss → (visible c).clinic = some cs →
      (keyGlob 'S' r.staffNo = false →
        (execute_query c (.insertStaff r)).1.1 = false ∧
        (execute_query c (.insertStaff r)).2 = c) ∧
      (staffChecks r = true →
       ss.any (fun x => x.staffNo == r.staffNo) = false →
       ss.any (fun x => x.staffPhone == r.staffPhone) = false →
       cs.any (fun x => x.clinicNo == r.clinicNo) = true →
        (execute_query c (.insertStaff r)).1 = (true, none))) ∧
    (∀ (ps : List PetRow) (os : List OwnerRow) (cs : List ClinicRow)
        (r : PetRow), (visible c).pet = some ps →
      (visible c).owner = some os → (visible c).clinic = some cs →
      (keyGlob 'P' r.petNo = false →
        (execute_query c (.insertPet r)).1.1 = false ∧
        (execute_query c (.insertPet r)).2 = c) ∧
      (petChecks r = true →
       ps.any (fun x => x.petNo == r.petNo) = false →
       os.any (fun x => x.ownerNo == r.ownerNo) = true →
       cs.any (fun x => x.clinicNo == r.clinicNo) = true →
        (execute_query c (.insertPet r)).1 = (true, none))) ∧
    (∀ (es : List ExamRow) (ps : List PetRow) (ss : List StaffRow)
        (r : ExamRow), (visible c).exam = some es →
      (visible c).pet = some ps → (visible c).staff = some ss →
      (keyGlob 'E' r.examNo = false →
        (execute_query c (.insertExam r)).1.1 = false ∧
        (execute_query c (.insertExam r)).2 = c) ∧
      (examChecks r = true →
       es.any (fun x => x.examNo == r.examNo) = false →
       ps.any (fun x => x.petNo == r.petNo) = true →
       ss.any (fun x => x.staffNo == r.staffNo) = true →
        (execute_query c (.insertExam r)).1 = (true, none))) := by
  refine ⟨fun cs r htab => ⟨fun hk => ?_, fun h1 h2 h3 => ?_⟩,
    fun os r htab => ⟨fun hk => ?_, fun h1 h2 h3 => ?_⟩,
    fun ss cs r htab htab2 => ⟨fun hk => ?_, fun h1 h2 h3 h4 => ?_⟩,
    fun ps os cs r htab htab2 htab3 => ⟨fun hk => ?_, fun h1 h2 h3 h4 => ?_⟩,
    fun es ps ss r htab htab2 htab3 => ⟨fun hk => ?_, fun h1 h2 h3 h4 => ?_⟩⟩
  · have hch : clinicChecks r = false := by simp [clinicChecks, hk]
    have hrun : runStmt (.insertClinic r) (visible c)
        = .error "CHECK constraint failed: Clinic" :=
      insertClinicRow_badcheck (visible c) cs r htab hch
    rw [execute_query_error_eq c _ _ hrun]
    exact ⟨rfl, rfl⟩
  · have hrun : runStmt (.insertClinic r) (visible c)
        = .ok (setClinic (visible c) (some (cs ++ [r]))) := by
      simp [runStmt, insertClinicRow, htab, h1, h2, h3]
    rw [execute_query_ok_eq c _ _ hrun]
  · have hch : ownerChecks r = false := by simp [ownerChecks, hk]
    have hrun : runStmt (.insertOwner r) (visible c)
        = .error "CHECK constraint failed: Owner" :=
      insertOwnerRow_badcheck (visible c) os r htab hch
    rw [execute_query_error_eq c _ _ hrun]
    exact ⟨rfl, rfl⟩
  · have hrun : runStmt (.insertOwner r) (visible c)
        = .ok (setOwner (visible c) (some (os ++ [r]))) := by
      simp [runStmt, insertOwnerRow, htab, h1, h2, h3]
    rw [execute_query_ok_eq c _ _ hrun]
  · have hch : staffChecks r = false := by simp [staffChecks, hk]
    have hrun : runStmt (.insertStaff r) (visible c)
        = .error "CHECK constraint failed: Staff" :=
      insertStaffRow_badcheck (visible c) ss r htab hch
    rw [execute_query_error_eq c _ _ hrun]
    exact ⟨rfl, rfl⟩
  · have hrun : runStmt (.insertStaff r) (visible c)
        = .ok (setStaff (visible c) (some (ss ++ [r]))) := by
      simp [runStmt, insertStaffRow, htab, htab2, h1, h2, h3, h4]
    rw [execute_query_ok_eq c _ _ hrun]
  · have hch : petChecks r = false := by simp [petChecks, hk]
    have hrun : runStmt (.insertPet r) (visible c)
        = .error "CHECK constraint failed: Pet" :=
      insertPetRow_badcheck (visible c) ps r htab hch
    rw [execute_query_error_eq c _ _ hrun]
    exact ⟨rfl, rfl⟩
  · have hrun : runStmt (.insertPet r) (visible c)
        = .ok (setPet (visible c) (some (ps ++ [r]))) :=
      insertPetRow_fk_ok (visible c) ps os cs r htab htab2 htab3 h3 h4 h1 h2
    rw [execute_query_ok_eq c _ _ hrun]
  · have hch : examChecks r = false := by simp [examChecks, hk]
    have hrun : runStmt (.insertExam r) (visible c)
        = .error "CHECK constraint failed: Examination" :=
      insertExamRow_badcheck (visible c) es r htab hch
    rw [execute_query_error_eq c _ _ hrun]
    exact ⟨rfl, rfl⟩
  · have hrun : runStmt (.insertExam r) (visible c)
        = .ok (setExam (visible c) (some (es ++ [r]))) := by
      simp [runStmt, insertExamRow, htab, htab2, htab3, h1, h2, h3, h4]
    rw [execute_query_ok_eq c _ _ hrun]

theorem C2_witness :
    ((execute_query sampleConn (.insertClinic clinicBadKey)).1.1 = false ∧
     (execute_query sampleConn (.insertClinic clinicBadKey)).2 = sampleConn) ∧
    (execute_query sampleConn (.insertClinic clinic6)).1 = (true, none) ∧
    ((execute_query sampleConn (.insertOwner ownerBadKey)).1.1 = false ∧
     (execute_query sampleConn (.insertOwner ownerBadKey)).2 = sampleConn) ∧
    (execute_query sampleConn (.insertOwner owner6)).1 = (true, none) ∧
    ((execute_query sampleConn (.insertStaff staffBadKey)).1.1 = false ∧
     (execute_query sampleConn (.insertStaff staffBadKey)).2 = sampleConn) ∧
    (execute_query sampleConn (.insertStaff staff6)).1 = (true, none) ∧
    ((execute_query sampleConn (.insertPet petBadKey)).1.1 = false ∧
     (execute_query sampleConn (.insertPet petBadKey)).2 = sampleConn) ∧
    (execute_query sampleConn (.insertPet pet6)).1 = (true, none) ∧
    ((execute_query sampleConn (.insertExam examBadKey)).1.1 = false ∧
     (execute_query sampleConn (.insertExam examBadKey)).2 = sampleConn) ∧
    (execute_query sampleConn (.insertExam exam6)).1 = (true, none) :=
  ⟨((C2_key_format sampleConn).1 [clinic1, clinic2] clinicBadKey rfl).1
     (by decide),
   ((C2_key_format sampleConn).1 [clinic1, clinic2] clinic6 rfl).2
     (by decide) (by decide) (by decide),
   ((C2_key_format sampleConn).2.1 [owner1] ownerBadKey rfl).1 (by decide),
   ((C2_key_format sampleConn).2.1 [owner1] owner6 rfl).2
     (by decide) (by decide) (by decide),
   ((C2_key_format sampleConn).2.2.1 [staff1] [clinic1, clinic2] staffBadKey
      rfl rfl).1 (by decide),
   ((C2_key_format sampleConn).2.2.1 [staff1] [clinic1, clinic2] staff6
      rfl rfl).2 (by decide) (by decide) (by decide) (by decide),
   ((C2_key_format sampleConn).2.2.2.1 [pet1] [owner1] [clinic1, clinic2]
      petBadKey rfl rfl rfl).1 (by decide),
   ((C2_key_format sampleConn).2.2.2.1 [pet1] [owner1] [clinic1, clinic2]
      pet6 rfl rfl rfl).2 (by decide) (by decide) (by decide) (by decide),
   ((C2_key_format sampleConn).2.2.2.2 [exam1] [pet1] [staff1] examBadKey
      rfl rfl rfl).1 (by decide),
   ((C2_key_format sampleConn).2.2.2.2 [exam1] [pet1] [staff1] exam6
      rfl rfl rfl).2 (by decide) (by decide) (by decide) (by decide)⟩

lemma updStaff_staffNo (n sNo : String) (t : StaffRow) :
    (updStaff n sNo t).staffNo = t.staffNo := by
  unfold updStaff
  split <;> rfl

lemma updStaff_eq_of_match (n sNo : String) (t : StaffRow)
    (h : (t.staffNo == sNo) = true) : updStaff n sNo t = withClinicNo t n := by
  unfold updStaff
  rw [if_pos h]

lemma filter_updStaff (ss : List StaffRow) (sNo n : String) :
    (ss.map (updStaff n sNo)).filter (fun t => t.staffNo == sNo)
      = (ss.filter (fun t => t.staffNo == sNo)).map (updStaff n sNo) := by
  induction ss with
  | nil => rfl
  | cons x xs ih =>
    simp only [List.map_cons, List.filter_cons, updStaff_staffNo]
    cases h : (x.staffNo == sNo) <;> simp [ih]

/-- Claim C6: on an existing staff row, updating `clinicNo` to an existing
clinic's key succeeds and a subsequent read of the staff row shows the new
`clinicNo`; updating to a value that is no Clinic key fails and a
subsequent read is unchanged. -/
theorem C6_reassign_staff_clinic (c : Conn) (ss : List StaffRow)
    (cs : List ClinicRow) (s : StaffRow) (newNo : String)
    (hs : (visible c).staff = some ss) (hc : (visible c).clinic = some cs)
    (hmem : s ∈ ss) :
    (cs.any (fun cl => cl.clinicNo == newNo) = true →
      (execute_query c (.updateStaffClinic newNo s.staffNo)).1
        = (true, none) ∧
      (fetch_query (execute_query c (.updateStaffClinic newNo s.staffNo)).2
          (.staffByNo s.staffNo)).1
        = .ok ((ss.filter (fun t => t.staffNo == s.staffNo)).map
            (fun t => Row.staff (withClinicNo t newNo))) ∧
      Row.staff (withClinicNo s newNo) ∈
        (ss.filter (fun t => t.staffNo == s.staffNo)).map
          (fun t => Row.staff (withClinicNo t newNo))) ∧
    (cs.any (fun cl => cl.clinicNo == newNo) = false →
      (execute_query c (.updateStaffClinic newNo s.staffNo)).1.1 = false ∧
      fetch_query (execute_query c (.updateStaffClinic newNo s.staffNo)).2
          (.staffByNo s.staffNo)
        = fetch_query c (.staffByNo s.staffNo)) := by
  have hany : ss.any (fun t => t.staffNo == s.staffNo) = true :=
    List.any_eq_true.2 ⟨s, hmem, by simp⟩
  constructor
  · intro hnew
    have hrun : runStmt (.updateStaffClinic newNo s.staffNo) (visible c)
        = .ok (setStaff (visible c)
            (some (ss.map (updStaff newNo s.staffNo)))) := by
      simp [runStmt, updateStaffClinicRow, hs, hc, hany, hnew]
    rw [execute_query_ok_eq c _ _ hrun]
    have h2 : (fetch_query
        ⟨setStaff (visible c) (some (ss.map (updStaff newNo s.staffNo))), none⟩
        (.staffByNo s.staffNo)).1
        = .ok (((ss.map (updStaff newNo s.staffNo)).filter
            (fun t => t.staffNo == s.staffNo)).map Row.staff) := rfl
    have heq : (fetch_query
        ⟨setStaff (visible c) (some (ss.map (updStaff newNo s.staffNo))), none⟩
        (.staffByNo s.staffNo)).1
        = .ok ((ss.filter (fun t => t.staffNo == s.staffNo)).map
            (fun t => Row.staff (withClinicNo t newNo))) := by
      rw [h2, filter_updStaff, List.map_map]
      refine congrArg Except.ok (List.map_congr_left (fun t ht => ?_))
      have hmatch : (t.staffNo == s.staffNo) = true :=
        (List.mem_filter.1 ht).2
      simp [Function.comp, updStaff_eq_of_match newNo s.staffNo t hmatch]
    refine ⟨rfl, heq, ?_⟩
    exact List.mem_map.2 ⟨s, List.mem_filter.2 ⟨hmem, by simp⟩, rfl⟩
  · intro hnew
    have hrun : runStmt (.updateStaffClinic newNo s.staffNo) (visible c)
        = .error "FOREIGN KEY constraint failed" := by
      simp [runStmt, updateStaffClinicRow, hs, hc, hany, hnew]
    rw [execute_query_error_eq c _ _ hrun]
    exact ⟨rfl, rfl⟩

theorem C6_witness :
    ((execute_query sampleConn
        (.updateStaffClinic "C000002" staff1.staffNo)).1 = (true, none) ∧
     (fetch_query (execute_query sampleConn
         (.updateStaffClinic "C000002" staff1.staffNo)).2
         (.staffByNo staff1.staffNo)).1
       = .ok (([staff1].filter (fun t => t.staffNo == staff1.staffNo)).map
           (fun t => Row.staff (withClinicNo t "C000002"))) ∧
     Row.staff (withClinicNo staff1 "C000002") ∈
       ([staff1].filter (fun t => t.staffNo == staff1.staffNo)).map
         (fun t => Row.staff (withClinicNo t "C000002"))) ∧
    ((execute_query sampleConn
        (.updateStaffClinic "InvalidClinicNo" staff1.staffNo)).1.1 = false ∧
     fetch_query (execute_query sampleConn
         (.updateStaffClinic "InvalidClinicNo" staff1.staffNo)).2
         (.staffByNo staff1.staffNo)
       = fetch_query sampleConn (.staffByNo staff1.staffNo)) :=
  ⟨(C6_reassign_staff_clinic sampleConn [staff1] [clinic1, clinic2] staff1
      "C000002" rfl rfl (by decide)).1 (by decide),
   (C6_reassign_staff_clinic sampleConn [staff1] [clinic1, clinic2] staff1
      "InvalidClinicNo" rfl rfl (by decide)).2 (by decide)⟩

/-- Claim C7: in transaction 1, whenever the owner-existence read returns
(the owner step runs at all), the pet insert is attempted in every case of
the owner step — owner already present, owner freshly inserted, or owner
insert failed — and each case's result carries exactly the outcome and
connection of the pet insert run on the connection the owner step left
behind. -/
theorem C7_pet_insert_always_attempted (c : Conn) (ow : OwnerRow)
    (p : PetRow) (rows : List Row)
    (hf : (fetch_query c (.ownerByNo ow.ownerNo)).1 = .ok rows) :
    (rows ≠ [] →
      addOwnerAndPet c ow p
        = .ok ⟨.existed, (execute_query c (.insertPet p)).1,
            (execute_query c (.insertPet p)).2⟩) ∧
    (rows = [] →
      ((execute_query c (.insertOwner ow)).1.1 = true →
        addOwnerAndPet c ow p
          = .ok ⟨.inserted,
              (execute_query (execute_query c (.insertOwner ow)).2
                (.insertPet p)).1,
              (execute_query (execute_query c (.insertOwner ow)).2
                (.insertPet p)).2⟩) ∧
      ((execute_query c (.insertOwner ow)).1.1 = false →
        addOwnerAndPet c ow p
          = .ok ⟨.failed (execute_query c (.insertOwner ow)).1.2,
              (execute_query (execute_query c (.insertOwner ow)).2
                (.insertPet p)).1,
              (execute_query (execute_query c (.insertOwner ow)).2
                (.insertPet p)).2⟩)) := by
  have hp := fetch_query_fst_ok c (.ownerByNo ow.ownerNo) rows hf
  constructor
  · intro hne
    have hcond : rows.isEmpty = false := by
      cases hr2 : rows with
      | nil => exact absurd hr2 hne
      | cons a l => rfl
    simp [addOwnerAndPet, hp, hcond]
  · intro hemp
    subst hemp
    refine ⟨fun hok => ?_, fun hfail => ?_⟩
    · simp [addOwnerAndPet, hp, hok]
    · simp [addOwnerAndPet, hp, hfail]

theorem C7_witness :
    (addOwnerAndPet sampleConn owner1 pet6
      = .ok ⟨.existed, (execute_query sampleConn (.insertPet pet6)).1,
          (execute_query sampleConn (.insertPet pet6)).2⟩) ∧
    (addOwnerAndPet sampleConn owner6 pet6
      = .ok ⟨.inserted,
          (execute_query (execute_query sampleConn (.insertOwner owner6)).2
            (.insertPet pet6)).1,
          (execute_query (execute_query sampleConn (.insertOwner owner6)).2
            (.insertPet pet6)).2⟩) ∧
    (addOwnerAndPet sampleConn ownerBadKey pet6
      = .ok ⟨.failed (execute_query sampleConn (.insertOwner ownerBadKey)).1.2,
          (execute_query (execute_query sampleConn
            (.insertOwner ownerBadKey)).2 (.insertPet pet6)).1,
          (execute_query (execute_query sampleConn
            (.insertOwner ownerBadKey)).2 (.insertPet pet6)).2⟩) :=
  ⟨(C7_pet_insert_always_attempted sampleConn owner1 pet6 [Row.owner owner1]
      (by decide)).1 (by decide),
   ((C7_pet_insert_always_attempted sampleConn owner6 pet6 []
      (by decide)).2 rfl).1 (by decide),
   ((C7_pet_insert_always_attempted sampleConn ownerBadKey pet6 []
      (by decide)).2 rfl).2 (by decide)⟩

/-- Claim C10: the Staff NULL semantics — a NULL `position` or `salary`
passes its CHECK (the enumeration and positivity tests reject only non-NULL
values outside their domains) so such an insert succeeds when the row's
other constraints hold, while a NULL `dateOfBirth` fails its
date-validity CHECK and the insert is rejected. -/
theorem C10_staff_null_columns :
    (positionCheck none = true ∧ salaryCheck none = true ∧
      dateCheck none = false) ∧
    (∀ (c : Conn) (ss : List StaffRow) (cs : List ClinicRow) (r : StaffRow),
      (visible c).staff = some ss → (visible c).clinic = some cs →
      (r.position = none ∨ r.salary = none) →
      positionCheck r.position = true → salaryCheck r.salary = true →
      keyGlob 'S' r.staffNo = true → containsDigit r.staffName = false →
      phoneGlob r.staffPhone = true → dateCheck r.dateOfBirth = true →
      ss.any (fun x => x.staffNo == r.staffNo) = false →
      ss.any (fun x => x.staffPhone == r.staffPhone) = false →
      cs.any (fun x => x.clinicNo == r.clinicNo) = true →
      (execute_query c (.insertStaff r)).1 = (true, none)) ∧
    (∀ (c : Conn) (ss : List StaffRow) (r : StaffRow),
      (visible c).staff = some ss → r.dateOfBirth = none →
      (execute_query c (.insertStaff r)).1.1 = false ∧
      (execute_query c (.insertStaff r)).2 = c) := by
  refine ⟨⟨rfl, rfl, rfl⟩,
    fun c ss cs r hs hc hnul hpos hsal hkey hname hph hdob hu1 hu2 hfk => ?_,
    fun c ss r hs hdob => ?_⟩
  · have hch : staffChecks r = true := by
      simp [staffChecks, hpos, hsal, hkey, hname, hph, hdob]
    have hrun : runStmt (.insertStaff r) (visible c)
        = .ok (setStaff (visible c) (some (ss ++ [r]))) := by
      simp [runStmt, insertStaffRow, hs, hc, hch, hu1, hu2, hfk]
    rw [execute_query_ok_eq c _ _ hrun]
  · have hch : staffChecks r = false := by
      simp [staffChecks, hdob, dateCheck]
    have hrun : runStmt (.insertStaff r) (visible c)
        = .error "CHECK constraint failed: Staff" :=
      insertStaffRow_badcheck (visible c) ss r hs hch
    rw [execute_query_error_eq c _ _ hrun]
    exact ⟨rfl, rfl⟩

theorem C10_witness :
    (execute_query sampleConn (.insertStaff staffNullPosSal)).1
      = (true, none) ∧
    ((execute_query sampleConn (.insertStaff staffNullDob)).1.1 = false ∧
     (execute_query sampleConn (.insertStaff staffNullDob)).2 = sampleConn) :=
  ⟨C10_staff_null_columns.2.1 sampleConn [staff1] [clinic1, clinic2]
     staffNullPosSal rfl rfl (Or.inl rfl) (by decide) (by decide) (by decide)
     (by decide) (by decide) (by decide) (by decide) (by decide) (by decide),
   C10_staff_null_columns.2.2 sampleConn [staff1] staffNullDob rfl rfl⟩

lemma rowsReferencing_pet_false (db : DB) (h : db.exam = none) :
    rowsReferencing db .pet = false := by
  unfold rowsReferencing
  rw [h]
  cases hp : db.pet <;> rfl

lemma rowsReferencing_staff_false (db : DB) (h : db.exam = none) :
    rowsReferencing db .staff = false := by
  unfold rowsReferencing
  rw [h]
  cases hs : db.staff <;> rfl

lemma rowsReferencing_owner_false (db : DB) (h : db.pet = none) :
    rowsReferencing db .owner = false := by
  unfold rowsReferencing
  rw [h]
  cases ho : db.owner <;> rfl

lemma rowsReferencing_clinic_false (db : DB) (hs : db.staff = none)
    (hp : db.pet = none) : rowsReferencing db .clinic = false := by
  unfold rowsReferencing
  rw [hs, hp]
  cases hc : db.clinic <;> rfl

lemma dropTableRun_exam (db : DB) :
    dropTableRun db .exam = .ok (setExam db none) := by
  cases h : db.exam with
  | none =>
    have he : setExam db none = db := by
      rw [← h]
      rfl
    rw [he]
    unfold dropTableRun
    rw [h]
  | some es =>
    unfold dropTableRun
    rw [h]
    rfl

lemma dropTableRun_pet (db : DB) (hx : db.exam = none) :
    dropTableRun db .pet = .ok (setPet db none) := by
  cases h : db.pet with
  | none =>
    have he : setPet db none = db := by
      rw [← h]
      rfl
    rw [he]
    unfold dropTableRun
    rw [h]
  | some ps =>
    unfold dropTableRun
    rw [h, rowsReferencing_pet_false db hx]
    rfl

lemma dropTableRun_staff (db : DB) (hx : db.exam = none) :
    dropTableRun db .staff = .ok (setStaff db none) := by
  cases h : db.staff with
  | none =>
    have he : setStaff db none = db := by
      rw [← h]
      rfl
    rw [he]
    unfold dropTableRun
    rw [h]
  | some ss =>
    unfold dropTableRun
    rw [h, rowsReferencing_staff_false db hx]
    rfl

lemma dropTableRun_owner (db : DB) (hx : db.pet = none) :
    dropTableRun db .owner = .ok (setOwner db none) := by
  cases h : db.owner with
  | none =>
    have he : setOwner db none = db := by
      rw [← h]
      rfl
    rw [he]
    unfold dropTableRun
    rw [h]
  | some os =>
    unfold dropTableRun
    rw [h, rowsReferencing_owner_false db hx]
    rfl

lemma dropTableRun_clinic (db : DB) (hs : db.staff = none)
    (hp : db.pet = none) :
    dropTableRun db .clinic = .ok (setClinic db none) := by
  cases h : db.clinic with
  | none =>
    have he : setClinic db none = db := by
      rw [← h]
      rfl
    rw [he]
    unfold dropTableRun
    rw [h]
  | some cs =>
    unfold dropTableRun
    rw [h, rowsReferencing_clinic_false db hs hp]
    rfl

lemma runScript_ok_cons (c : Conn) (s : Stmt) (rest : List Stmt) (db : DB)
    (h : runStmt s (visible c) = .ok db) :
    runScript c (s :: rest) = runScript ⟨db, none⟩ rest := by
  show ((execute_query c s).1.1 && (runScript (execute_query c s).2 rest).1,
    (runScript (execute_query c s).2 rest).2) = runScript ⟨db, none⟩ rest
  rw [execute_query_ok_eq c s db h]
  simp

lemma drop_tables_result (c : Conn) :
    drop_tables c = (true, (⟨allNone, none⟩ : Conn)) := by
  have h1 : runStmt (.dropTable .exam) (visible c)
      = .ok (setExam (visible c) none) := dropTableRun_exam (visible c)
  have h2 : runStmt (.dropTable .pet)
      (visible (⟨setExam (visible c) none, none⟩ : Conn))
      = .ok (setPet (setExam (visible c) none) none) :=
    dropTableRun_pet (setExam (visible c) none) rfl
  have h3 : runStmt (.dropTable .staff)
      (visible (⟨setPet (setExam (visible c) none) none, none⟩ : Conn))
      = .ok (setStaff (setPet (setExam (visible c) none) none) none) :=
    dropTableRun_staff (setPet (setExam (visible c) none) none) rfl
  have h4 : runStmt (.dropTable .owner)
      (visible (⟨setStaff (setPet (setExam (visible c) none) none) none,
        none⟩ : Conn))
      = .ok (setOwner
          (setStaff (setPet (setExam (visible c) none) none) none) none) :=
    dropTableRun_owner
      (setStaff (setPet (setExam (visible c) none) none) none) rfl
  have h5 : runStmt (.dropTable .clinic)
      (visible (⟨setOwner (setStaff (setPet (setExam (visible c) none) none)
        none) none, none⟩ : Conn))
      = .ok (setClinic (setOwner (setStaff (setPet (setExam (visible c) none)
          none) none) none) none) :=
    dropTableRun_clinic
      (setOwner (setStaff (setPet (setExam (visible c) none) none) none) none)
      rfl rfl
  show runScript c [.dropTable .exam, .dropTable .pet, .dropTable .staff,
    .dropTable .owner, .dropTable .clinic] = (true, (⟨allNone, none⟩ : Conn))
  rw [runScript_ok_cons c _ _ _ h1, runScript_ok_cons _ _ _ _ h2,
    runScript_ok_cons _ _ _ _ h3, runScript_ok_cons _ _ _ _ h4,
    runScript_ok_cons _ _ _ _ h5]
  rfl

/-- Claim C8: `drop_tables` then `create_tables` succeeds statement by
statement from any starting connection state (children are dropped before
their referents, so no drop hits a foreign-key violation; `IF EXISTS` /
`IF NOT EXISTS` silence missing/duplicate tables) and always leaves the
committed, fully constrained empty five-table schema; running the sequence
twice gives the same result, identical to a first-time initialization. -/
theorem C8_reset_schema_idempotent (c : Conn) :
    resetSchema c = (true, ⟨emptySchema, none⟩) ∧
    resetSchema (resetSchema c).2 = (true, ⟨emptySchema, none⟩) := by
  have hcr : create_tables (⟨allNone, none⟩ : Conn)
      = (true, (⟨emptySchema, none⟩ : Conn)) := by decide
  have key : ∀ c2 : Conn, resetSchema c2 = (true, ⟨emptySchema, none⟩) := by
    intro c2
    show ((drop_tables c2).1 && (create_tables (drop_tables c2).2).1,
      (create_tables (drop_tables c2).2).2) = (true, ⟨emptySchema, none⟩)
    rw [drop_tables_result c2]
    simp [hcr]
  refine ⟨key c, ?_⟩
  rw [key c]
  exact key ⟨emptySchema, none⟩

lemma runMany_append (db : DB) (l1 l2 : List Stmt) :
    runMany db (l1 ++ l2)
      = match runMany db l1 with
        | .ok d => runMany d l2
        | .error p => .error p := by
  induction l1 generalizing db with
  | nil => simp [runMany]
  | cons s rest ih =>
    cases hr : runStmt s db with
    | ok d2 =>
      show runMany db (s :: (rest ++ l2)) = _
      simp only [runMany, hr]
      exact ih d2
    | error e =>
      show runMany db (s :: (rest ++ l2)) = _
      simp only [runMany, hr]

/-- Claim C3 counterexample: a two-tuple batch whose second tuple violates
a constraint returns a failure, yet the first tuple's row is visible on the
connection after the call, and a later successful (and committing) call on
the same connection makes that row durable — the failed batch's effects are
neither absent nor rolled back. -/
theorem C3_counterexample :
    (execute_many freshConn Stmt.insertOwner [owner1, owner1]).1.1 = false ∧
    visible (execute_many freshConn Stmt.insertOwner [owner1, owner1]).2
      ≠ visible freshConn ∧
    (execute_query (execute_many freshConn Stmt.insertOwner
        [owner1, owner1]).2 (.insertClinic clinic1)).1.1 = true ∧
    (execute_query (execute_many freshConn Stmt.insertOwner
        [owner1, owner1]).2 (.insertClinic clinic1)).2.committed.owner
      = some [owner1] := by
  decide

/-- Claim C3 as amended: `execute_many` commits the whole batch when every
tuple succeeds; when a tuple fails, the call returns the failure and the
failing tuple (and the rest) has no effect, but the tuples before it remain
applied in the connection's open transaction — the visible state after the
failed call is the pre-call state with those earlier tuples applied, not
the pre-call state itself. -/
theorem C3_batch_not_atomic (α : Type) (c : Conn) (mk : α → Stmt)
    (pre : List α) (x : α) (post : List α) (dbp : DB) (e : String) :
    (∀ d, runMany (visible c) ((pre ++ x :: post).map mk) = .ok d →
      execute_many c mk (pre ++ x :: post) = ((true, none), ⟨d, none⟩)) ∧
    (runMany (visible c) (pre.map mk) = .ok dbp →
     runStmt (mk x) dbp = .error e →
      execute_many c mk (pre ++ x :: post)
        = ((false, some e), ⟨c.committed, some dbp⟩) ∧
      visible (execute_many c mk (pre ++ x :: post)).2 = dbp) := by
  constructor
  · intro d h
    unfold execute_many
    rw [h]
  · intro h1 h2
    have hm : runMany (visible c) ((pre ++ x :: post).map mk)
        = .error (dbp, e) := by
      rw [List.map_append, runMany_append, h1]
      simp [runMany, h2]
    have hh : execute_many c mk (pre ++ x :: post)
        = ((false, some e), ⟨c.committed, some dbp⟩) := by
      unfold execute_many
      rw [hm]
    refine ⟨hh, ?_⟩
    rw [hh]
    rfl

theorem C3_witness :
    runMany (visible freshConn) ([owner1].map Stmt.insertOwner)
      = .ok (setOwner emptySchema (some [owner1])) ∧
    runStmt (Stmt.insertOwner owner1) (setOwner emptySchema (some [owner1]))
      = .error "UNIQUE constraint failed: Owner.ownerNo" ∧
    execute_many freshConn Stmt.insertOwner ([owner1] ++ owner1 :: [])
      = ((false, some "UNIQUE constraint failed: Owner.ownerNo"),
         ⟨emptySchema, some (setOwner emptySchema (some [owner1]))⟩) ∧
    visible (execute_many freshConn Stmt.insertOwner
        ([owner1] ++ owner1 :: [])).2
      = setOwner emptySchema (some [owner1]) :=
  have h1 : runMany (visible freshConn) ([owner1].map Stmt.insertOwner)
      = .ok (setOwner emptySchema (some [owner1])) := by decide
  have h2 : runStmt (Stmt.insertOwner owner1)
      (setOwner emptySchema (some [owner1]))
      = .error "UNIQUE constraint failed: Owner.ownerNo" := by decide
  ⟨h1, h2,
   ((C3_batch_not_atomic OwnerRow freshConn Stmt.insertOwner [owner1] owner1
      [] (setOwner emptySchema (some [owner1]))
      "UNIQUE constraint failed: Owner.ownerNo").2 h1 h2).1,
   ((C3_batch_not_atomic OwnerRow freshConn Stmt.insertOwner [owner1] owner1
      [] (setOwner emptySchema (some [owner1]))
      "UNIQUE constraint failed: Owner.ownerNo").2 h1 h2).2⟩

end VetClinic
